import Mathlib

/-!
Shallow embedding of `src/main.go` of the wecollabo repository: a minimal
HTTP server with panic-recovery middleware and graceful shutdown.

Modelling choices:
* A handler (Go `http.Handler`) is a function from a request to either a
  complete response (`HandlerResult.ok`) or a raised fault
  (`HandlerResult.fault`, carrying the panic value).  Both handlers in the
  source either write one complete response or panic before writing.
* The goroutine stack snapshot produced by
  `pprof.Lookup("goroutine").WriteTo(&buf, 2)` is runtime-dependent text; it
  is modelled as a `String` parameter threaded to the code that logs it.
* Wall-clock time is `Nat` "time units" (seconds).  `time.Sleep(d)` advances
  time by `d`; `context.WithTimeout(bg, 5*time.Second)` creates a deadline
  `now + 5`; `server.Shutdown(ctx)` succeeds iff the in-flight requests
  finish before the deadline, i.e. iff `now + drainNeeded ≤ deadline`.
* Go `defer`/`recover` semantics: a panic raised after the deferred
  recovery block of `main` is registered is caught there during unwinding;
  execution does NOT resume after the panic site, `main` then returns
  normally and the process exits 0.
-/

namespace GoServer

/-- An HTTP request: method and URL path (the only parts the source reads). -/
structure Request where
  method : String
  path : String
  deriving DecidableEq, Repr

/-- An HTTP response: status code and body text. -/
structure Response where
  status : Nat
  body : String
  deriving DecidableEq, Repr

/-- Outcome of running a handler on one request: a complete response, or a
fault (Go panic) carrying the panic value. -/
inductive HandlerResult where
  | ok : Response → HandlerResult
  | fault : String → HandlerResult
  deriving DecidableEq, Repr

/-- A request handler (`http.Handler`). -/
abbrev Handler := Request → HandlerResult

/-- `src/main.go` lines 44-46: the `/` handler.  `fmt.Fprintln(w, "Hello, World!")`
writes the body with a trailing newline; the status defaults to 200. -/
def helloHandler : Handler := fun _ => HandlerResult.ok ⟨200, "Hello, World!\n"⟩

/-- `src/main.go` lines 49-51: the `/panic` handler, which panics with the
literal value `"Something went wrong!"`. -/
def panicHandler : Handler := fun _ => HandlerResult.fault "Something went wrong!"

/-- `src/main.go` lines 43-51: the `ServeMux` with patterns `"/"` and
`"/panic"`.  Go mux matching picks the longest registered pattern matching
the path: the exact pattern `"/panic"` for path `/panic`, otherwise the
catch-all rooted-subtree pattern `"/"`.  Patterns carry no method, so every
method is matched. -/
def mux : Handler := fun r =>
  if r.path = "/panic" then panicHandler r else helloHandler r

/-- The log line of `src/main.go` line 26:
`logger.Printf("PANIC RECOVERED: %v\nSTACK TRACE:\n%s", err, buf.String())`. -/
def panicLogMsg (v stack : String) : String :=
  "PANIC RECOVERED: " ++ v ++ "\nSTACK TRACE:\n" ++ stack

/-- `src/main.go` lines 20-32, `recoveryMiddleware`: runs `next`; on a fault
it logs the panic value with the stack snapshot and writes the response of
`http.Error(w, "Internal Server Error", 500)` (which appends a newline to
the body); otherwise it passes the handler's response through untouched.
The result type (a response paired with emitted log lines, never a fault)
expresses that no fault escapes to the caller. -/
def recoveryMiddleware (stack : String) (next : Handler) :
    Request → Response × List String :=
  fun r =>
    match next r with
    | HandlerResult.ok resp => (resp, [])
    | HandlerResult.fault v =>
        (⟨500, "Internal Server Error\n"⟩, [panicLogMsg v stack])

/-- `src/main.go` line 54: the server's handler, the mux wrapped by the
recovery middleware. -/
def app (stack : String) : Request → Response × List String :=
  recoveryMiddleware stack mux

/-- The server processing a sequence of requests: each request is handled
independently by `app` (the process survives each one, so the next request
is served the same way). -/
def serveAll (stack : String) (rs : List Request) : List (Response × List String) :=
  rs.map (app stack)

/-! ### Lifecycle controller (`main`, `src/main.go` lines 41-98) -/

/-- Observable events of the lifecycle controller, in order of occurrence:
ordinary log lines (`logger.Println`/`Printf`), fatal log lines
(`logger.Fatalf`, which logs and then exits 1), the creation of the
shutdown deadline context (`context.WithTimeout`, line 78, recording the
deadline), and the drain call (`server.Shutdown(ctx)`, line 94, recording
the time at which it is made and the deadline of the context it receives). -/
inductive Ev where
  | log : String → Ev
  | fatalLog : String → Ev
  | ctxCreated : Nat → Ev
  | drainCall : Nat → Nat → Ev
  deriving DecidableEq, Repr

/-- Whether an event is the drain call (`server.Shutdown`). -/
def isDrain (e : Ev) : Bool :=
  match e with
  | Ev.drainCall _ _ => true
  | _ => false

/-- Whether an event is a fatal log line (`logger.Fatalf`). -/
def isFatal (e : Ev) : Bool :=
  match e with
  | Ev.fatalLog _ => true
  | _ => false

/-- Process status after running the main path: still blocked serving
(waiting for a signal), or exited with the given exit code. -/
inductive ProcState where
  | serving : ProcState
  | exited : Nat → ProcState
  deriving DecidableEq, Repr

/-- One run of the cleanup step: the log lines it emits before returning or
faulting, the time it spends, and (`some v`) whether it raises a fault with
value `v` instead of returning. -/
structure CleanupRun where
  logs : List String
  elapsed : Nat
  fault : Option String
  deriving DecidableEq, Repr

/-- `src/main.go` lines 35-39, `cleanup`: logs, sleeps 2 time units, logs
again, and never faults. -/
def cleanup : CleanupRun :=
  ⟨["Cleaning up resources (DB, caches, etc.)...",
    "Cleanup complete. Server shutting down."], 2, none⟩

/-- The log line of `src/main.go` line 86:
`logger.Printf("PANIC DURING SHUTDOWN: %v\nSTACK TRACE:\n%s", x, buf.String())`. -/
def shutdownPanicMsg (v stack : String) : String :=
  "PANIC DURING SHUTDOWN: " ++ v ++ "\nSTACK TRACE:\n" ++ stack

/-- `src/main.go` lines 74-98: the main path once the signal receive at
line 74 has returned, at time `t`.  It logs receipt, creates the deadline
context (`t + 5`), registers the deferred shutdown recovery block, runs the
cleanup step (parametrised by `cr` so that hypothetical faulting cleanups
can be analysed; the code's own cleanup is the constant `cleanup`), and then
calls `server.Shutdown` with the context.  If cleanup faults, the deferred
block recovers and logs during unwinding and `main` returns — with exit
code 0 and without ever reaching the `server.Shutdown` call.  Otherwise the
drain is made at time `t + cr.elapsed`; it succeeds iff the `drainNeeded`
time units the in-flight requests still need fit before the deadline,
else `logger.Fatalf` fires (exit 1). -/
def mainAfterSignal (t : Nat) (cr : CleanupRun) (drainNeeded : Nat)
    (stack : String) : List Ev × ProcState :=
  let deadline := t + 5
  let hdr : List Ev :=
    [Ev.log "Shutdown signal received. Cleaning up...", Ev.ctxCreated deadline]
  let clogs : List Ev := cr.logs.map Ev.log
  match cr.fault with
  | some v =>
      (hdr ++ clogs ++ [Ev.log (shutdownPanicMsg v stack)], ProcState.exited 0)
  | none =>
      let now := t + cr.elapsed
      if now + drainNeeded ≤ deadline then
        (hdr ++ clogs ++
          [Ev.drainCall now deadline, Ev.log "Server exited gracefully."],
         ProcState.exited 0)
      else
        (hdr ++ clogs ++
          [Ev.drainCall now deadline,
           Ev.fatalLog "Server shutdown failed: context deadline exceeded"],
         ProcState.exited 1)

/-! ### Signals (`src/main.go` lines 62-63, 74) -/

/-- OS signals relevant to the model: the two the source traps, plus
representative untrapped ones. -/
inductive Sig where
  | sigint
  | sigterm
  | sighup
  | sigusr1
  deriving DecidableEq, Repr

/-- `signal.Notify(stop, syscall.SIGINT, syscall.SIGTERM)` (line 63): the
set of signals forwarded to the channel. -/
def trapped (s : Sig) : Bool :=
  s == Sig.sigint || s == Sig.sigterm

/-- Delivery of one OS signal to the process with channel state `c`: a
trapped signal is sent to the capacity-1 channel without blocking (dropped
if the slot is already full); an untrapped signal does not touch it. -/
def sendSig (c : Option Sig) (s : Sig) : Option Sig :=
  if trapped s then
    match c with
    | none => some s
    | some x => some x
  else c

/-- Channel contents after a sequence of signal deliveries to the initially
empty `stop` channel (`make(chan os.Signal, 1)`, line 62). -/
def chanAfter (sigs : List Sig) : Option Sig :=
  sigs.foldl sendSig none

/-- The whole main path: `<-stop` (line 74) blocks until the channel holds a
signal.  If no trapped signal was delivered the main path is still blocked
and no shutdown event has happened; otherwise the shutdown sequence
`mainAfterSignal` runs. -/
def mainTrace (sigs : List Sig) (t : Nat) (cr : CleanupRun)
    (drainNeeded : Nat) (stack : String) : List Ev × ProcState :=
  match chanAfter sigs with
  | none => ([], ProcState.serving)
  | some _ => mainAfterSignal t cr drainNeeded stack

/-! ### Serve goroutine (`src/main.go` lines 66-71) -/

/-- Result of `server.ListenAndServe()`: no error, the sentinel
`http.ErrServerClosed` (returned after a deliberate shutdown), or any other
error with its message. -/
inductive ServeResult where
  | noError
  | serverClosed
  | otherError : String → ServeResult
  deriving DecidableEq, Repr

/-- `src/main.go` lines 66-71: the serve goroutine logs startup and calls
`ListenAndServe`; `logger.Fatalf("Server error: %v", err)` fires iff the
returned error is non-nil and is not `http.ErrServerClosed`.  The boolean
records whether the fatal exit happened. -/
def serveGoroutine (res : ServeResult) : List Ev × Bool :=
  match res with
  | ServeResult.otherError m =>
      ([Ev.log "Server started on :8080", Ev.fatalLog ("Server error: " ++ m)],
       true)
  | _ => ([Ev.log "Server started on :8080"], false)

/-! ### Claim theorems -/

/-- C1: the operation produced by `recoveryMiddleware` never raises a fault
to its caller (its codomain has no fault constructor: it is total and
always yields a response).  If the underlying handler raises a fault `v`,
the wrapper emits the log line carrying the fault value and the captured
stack snapshot and responds with the fixed 500 "Internal Server Error"
response; if no fault occurs, the result is exactly the handler's response
with nothing logged (pass-through). -/
theorem recovery_contains_fault (stack : String) (next : Handler) (r : Request) :
    (∀ v, next r = HandlerResult.fault v →
        recoveryMiddleware stack next r =
          (⟨500, "Internal Server Error\n"⟩, [panicLogMsg v stack]))
    ∧ ∀ resp, next r = HandlerResult.ok resp →
        recoveryMiddleware stack next r = (resp, []) := by
  constructor
  · intro v h
    simp [recoveryMiddleware, h]
  · intro resp h
    simp [recoveryMiddleware, h]

/-- Witness for C1: both branches of `recovery_contains_fault`, evaluated on
the program's own mux at concrete requests. -/
theorem recovery_contains_fault_witness :
    recoveryMiddleware "S" mux ⟨"GET", "/panic"⟩ =
      (⟨500, "Internal Server Error\n"⟩, [panicLogMsg "Something went wrong!" "S"])
    ∧ recoveryMiddleware "S" mux ⟨"GET", "/"⟩ = (⟨200, "Hello, World!\n"⟩, []) :=
  ⟨(recovery_contains_fault "S" mux ⟨"GET", "/panic"⟩).1 "Something went wrong!"
      (by decide),
   (recovery_contains_fault "S" mux ⟨"GET", "/"⟩).2 ⟨200, "Hello, World!\n"⟩
      (by decide)⟩

/-- C4: a `GET /panic` request yields exactly one response, with status 500
and body "Internal Server Error\n", together with one log line that starts
with "PANIC RECOVERED" and ends with the captured stack snapshot; the
subsequent requests `rest` are served exactly as they would have been
without the panicking request (the process stays alive). -/
theorem panic_route_recovered (stack : String) (rest : List Request) :
    serveAll stack (⟨"GET", "/panic"⟩ :: rest) =
      (⟨500, "Internal Server Error\n"⟩,
        [panicLogMsg "Something went wrong!" stack]) :: serveAll stack rest
    ∧ ∃ t, panicLogMsg "Something went wrong!" stack = "PANIC RECOVERED" ++ t := by
  constructor
  · simp [serveAll, app, recoveryMiddleware, mux, panicHandler]
  · refine ⟨": Something went wrong!\nSTACK TRACE:\n" ++ stack, ?_⟩
    have h1 : panicLogMsg "Something went wrong!" stack =
        ("PANIC RECOVERED: " ++ "Something went wrong!" ++ "\nSTACK TRACE:\n")
          ++ stack := rfl
    have h2 : ("PANIC RECOVERED: " ++ "Something went wrong!"
          ++ "\nSTACK TRACE:\n" : String) =
        "PANIC RECOVERED" ++ ": Something went wrong!\nSTACK TRACE:\n" := by decide
    rw [h1, h2, String.append_assoc]

/-- C9: every request to path `/` (any method, any runtime stack snapshot)
receives status 200 with body "Hello, World!\n", and nothing is logged. -/
theorem root_route_ok (stack m : String) :
    app stack ⟨m, "/"⟩ = (⟨200, "Hello, World!\n"⟩, []) := by
  have h : ("/" : String) ≠ "/panic" := by decide
  simp [app, recoveryMiddleware, mux, helloHandler, h]

/-- C10: the `/` registration is a catch-all: every request whose path is
not `/panic` — any path, any method — receives status 200 with body
"Hello, World!\n", and no request whatsoever is answered with 404. -/
theorem catchall_no_404 (stack : String) (r : Request) (h : r.path ≠ "/panic") :
    app stack r = (⟨200, "Hello, World!\n"⟩, [])
    ∧ ∀ q : Request, (app stack q).1.status ≠ 404 := by
  constructor
  · simp [app, recoveryMiddleware, mux, helloHandler, h]
  · intro q
    by_cases hq : q.path = "/panic" <;>
      simp [app, recoveryMiddleware, mux, helloHandler, panicHandler, hq]

/-- Witness for C10: an unknown path with a non-GET method is answered 200
"Hello, World!\n". -/
theorem catchall_no_404_witness :
    app "S" ⟨"POST", "/nonexistent"⟩ = (⟨200, "Hello, World!\n"⟩, []) :=
  (catchall_no_404 "S" ⟨"POST", "/nonexistent"⟩ (by decide)).1

/-- A hypothetical run of the cleanup step that raises a fault after its
first log line, one time unit in. -/
def faultingCleanup : CleanupRun :=
  ⟨["Cleaning up resources (DB, caches, etc.)..."], 1, some "cleanup blew up"⟩

/-- C2 counterexample: when cleanup faults, the fault is indeed recovered
and logged with a stack snapshot, but the trace contains NO drain call —
`server.Shutdown` is never reached, because the deferred recovery block
runs while `main` unwinds and `main` then returns.  The claim's "the
subsequent drain attempt is still made" is false at this input. -/
theorem cleanup_fault_counterexample :
    Ev.log (shutdownPanicMsg "cleanup blew up" "S")
        ∈ (mainAfterSignal 0 faultingCleanup 0 "S").1
    ∧ (mainAfterSignal 0 faultingCleanup 0 "S").1.all (fun e => !isDrain e)
        = true := by
  decide

/-- C2 (amended): a fault raised during cleanup is caught by the dedicated
shutdown fault boundary and logged with a stack snapshot, and the process
does not crash (it exits normally, code 0) — but shutdown does NOT
continue: the subsequent drain attempt is never made (no drain event
appears in the trace). -/
theorem cleanup_fault_caught_no_drain (t dn e : Nat) (ls : List String)
    (v stack : String) :
    (mainAfterSignal t ⟨ls, e, some v⟩ dn stack).2 = ProcState.exited 0
    ∧ Ev.log (shutdownPanicMsg v stack)
        ∈ (mainAfterSignal t ⟨ls, e, some v⟩ dn stack).1
    ∧ (mainAfterSignal t ⟨ls, e, some v⟩ dn stack).1.all (fun ev => !isDrain ev)
        = true := by
  refine ⟨rfl, ?_, ?_⟩
  · simp [mainAfterSignal]
  · simp [mainAfterSignal, isDrain, List.all_append, List.all_map]

/-- C3: for any non-faulting cleanup run, the trace is: receipt log, then
creation of the deadline context with deadline `t + 5` (5 time units from
signal receipt `t`), then the cleanup logs, then the drain call made at
time `t + e` and receiving that same deadline.  Hence the remaining drain
window at the drain call is `5 - e` — time spent in cleanup reduces it —
and for the code's own cleanup (`elapsed = 2`) the remaining window
`5 - cleanup.elapsed` is strictly less than the full 5. -/
theorem drain_window_from_signal (t dn e : Nat) (ls : List String)
    (stack : String) :
    (∃ rest, (mainAfterSignal t ⟨ls, e, none⟩ dn stack).1 =
        Ev.log "Shutdown signal received. Cleaning up..." ::
          Ev.ctxCreated (t + 5) ::
            (ls.map Ev.log ++ Ev.drainCall (t + e) (t + 5) :: rest))
    ∧ (t + 5) - (t + e) = 5 - e
    ∧ 5 - cleanup.elapsed < 5 := by
  refine ⟨?_, by omega, by decide⟩
  by_cases h : t + e + dn ≤ t + 5
  · exact ⟨[Ev.log "Server exited gracefully."], by simp [mainAfterSignal, h]⟩
  · exact ⟨[Ev.fatalLog "Server shutdown failed: context deadline exceeded"],
      by simp [mainAfterSignal, h]⟩

/-- C5: with the code's cleanup (2 time units of the 5-unit window), the
drain succeeds iff the in-flight requests need at most 3 more units.  On
failure the process logs the fatal shutdown error and exits 1, with no
graceful-exit log line; on success it logs "Server exited gracefully." and
exits 0 with no fatal line; in both cases exactly one drain attempt is made
(no retry). -/
theorem drain_deadline_fatal (t dn : Nat) (stack : String) :
    ((mainAfterSignal t cleanup dn stack).2 = ProcState.exited 0 ↔ dn ≤ 3)
    ∧ ((mainAfterSignal t cleanup dn stack).2 = ProcState.exited 1 ↔ 3 < dn)
    ∧ (Ev.log "Server exited gracefully." ∈ (mainAfterSignal t cleanup dn stack).1
        ↔ dn ≤ 3)
    ∧ (Ev.fatalLog "Server shutdown failed: context deadline exceeded"
          ∈ (mainAfterSignal t cleanup dn stack).1 ↔ 3 < dn)
    ∧ List.countP isDrain (mainAfterSignal t cleanup dn stack).1 = 1 := by
  rcases le_or_lt dn 3 with h | h
  · have hif : t + 2 + dn ≤ t + 5 := by omega
    have hn : ¬ 3 < dn := by omega
    simp [mainAfterSignal, cleanup, hif, isDrain, h, hn]
  · have hif : ¬ t + 2 + dn ≤ t + 5 := by omega
    have hn : ¬ dn ≤ 3 := by omega
    simp [mainAfterSignal, cleanup, hif, isDrain, h, hn]

/-- C6: on a signal received at time `t` with no in-flight request
exceeding the remaining window, the trace is exactly the receipt log, the
context creation, the two cleanup logs, the drain call, and the graceful
exit log, in this strict order, and no fatal log line appears anywhere. -/
theorem graceful_shutdown_log_order (t dn : Nat) (stack : String)
    (h : dn ≤ 3) :
    (mainAfterSignal t cleanup dn stack).1 =
      [Ev.log "Shutdown signal received. Cleaning up...",
       Ev.ctxCreated (t + 5),
       Ev.log "Cleaning up resources (DB, caches, etc.)...",
       Ev.log "Cleanup complete. Server shutting down.",
       Ev.drainCall (t + 2) (t + 5),
       Ev.log "Server exited gracefully."]
    ∧ (mainAfterSignal t cleanup dn stack).1.all (fun e => !isFatal e)
        = true := by
  have hif : t + 2 + dn ≤ t + 5 := by omega
  constructor
  · simp [mainAfterSignal, cleanup, hif]
  · simp [mainAfterSignal, cleanup, hif, isFatal]

/-- Witness for C6 at `t = 0`, `drainNeeded = 0`. -/
theorem graceful_shutdown_log_order_witness :
    (mainAfterSignal 0 cleanup 0 "S").1 =
      [Ev.log "Shutdown signal received. Cleaning up...",
       Ev.ctxCreated 5,
       Ev.log "Cleaning up resources (DB, caches, etc.)...",
       Ev.log "Cleanup complete. Server shutting down.",
       Ev.drainCall 2 5,
       Ev.log "Server exited gracefully."]
    ∧ (mainAfterSignal 0 cleanup 0 "S").1.all (fun e => !isFatal e) = true :=
  graceful_shutdown_log_order 0 0 "S" (by decide)

/-- Once the capacity-1 channel is full, further deliveries leave it
unchanged. -/
theorem foldl_sendSig_some (l : List Sig) (x : Sig) :
    l.foldl sendSig (some x) = some x := by
  induction l with
  | nil => rfl
  | cons s l ih =>
      have h : sendSig (some x) s = some x := by
        by_cases hs : trapped s = true <;> simp [sendSig, hs]
      simp [List.foldl_cons, h, ih]

/-- Unfolding one delivery: a trapped head signal fills the empty channel;
an untrapped one is ignored. -/
theorem chanAfter_cons (s : Sig) (l : List Sig) :
    chanAfter (s :: l) = if trapped s then some s else chanAfter l := by
  by_cases hs : trapped s = true <;>
    simp [chanAfter, List.foldl_cons, sendSig, hs, foldl_sendSig_some]

/-- The channel stays empty iff no delivered signal was trapped. -/
theorem chanAfter_eq_none (l : List Sig) :
    chanAfter l = none ↔ ∀ s ∈ l, trapped s = false := by
  induction l with
  | nil => simp [chanAfter]
  | cons s l ih =>
      rw [chanAfter_cons]
      by_cases hs : trapped s = true <;> simp [hs, ih]

/-- A signal read from the channel was delivered and is trapped. -/
theorem chanAfter_eq_some (l : List Sig) (s : Sig)
    (h : chanAfter l = some s) : s ∈ l ∧ trapped s = true := by
  induction l with
  | nil => simp [chanAfter] at h
  | cons a l ih =>
      rw [chanAfter_cons] at h
      by_cases ha : trapped a = true
      · rw [if_pos ha] at h
        injection h with h
        subst h
        exact ⟨List.mem_cons_self a l, ha⟩
      · rw [if_neg ha] at h
        rcases ih h with ⟨h1, h2⟩
        exact ⟨List.mem_cons_of_mem a h1, h2⟩

/-- The shutdown sequence always ends in an exit, never back in serving. -/
theorem mainAfterSignal_exits (t : Nat) (cr : CleanupRun) (dn : Nat)
    (stack : String) :
    ∃ c, (mainAfterSignal t cr dn stack).2 = ProcState.exited c := by
  rcases cr with ⟨ls, e, f⟩
  cases f with
  | some v => exact ⟨0, rfl⟩
  | none =>
      by_cases h : t + e + dn ≤ t + 5
      · exact ⟨0, by simp [mainAfterSignal, h]⟩
      · exact ⟨1, by simp [mainAfterSignal, h]⟩

/-- C7: the shutdown sequence runs iff some delivered signal is trapped;
exactly SIGINT and SIGTERM are trapped; the channel is a single slot
written once (the first trapped delivery occupies it for good); and while
no trapped signal has been delivered the main path has produced no event
and the process is still serving — shutdown never begins before a
termination signal is received. -/
theorem signal_gating (sigs : List Sig) (t : Nat) (cr : CleanupRun)
    (dn : Nat) (stack : String) :
    ((mainTrace sigs t cr dn stack).2 ≠ ProcState.serving ↔
        ∃ s ∈ sigs, trapped s = true)
    ∧ (∀ s, trapped s = true ↔ (s = Sig.sigint ∨ s = Sig.sigterm))
    ∧ (∀ s rest, trapped s = true → chanAfter (s :: rest) = some s)
    ∧ (chanAfter sigs = none →
        mainTrace sigs t cr dn stack = ([], ProcState.serving)) := by
  refine ⟨?_, ?_, ?_, ?_⟩
  · cases hch : chanAfter sigs with
    | none =>
        have hall := (chanAfter_eq_none sigs).mp hch
        have h2 : (mainTrace sigs t cr dn stack).2 = ProcState.serving := by
          simp [mainTrace, hch]
        rw [h2]
        constructor
        · intro hne
          exact absurd rfl hne
        · rintro ⟨s, hs, ht⟩ _
          rw [hall s hs] at ht
          exact Bool.false_ne_true ht
    | some s =>
        rcases chanAfter_eq_some sigs s hch with ⟨hmem, htr⟩
        simp only [mainTrace, hch, ne_eq]
        constructor
        · intro _
          exact ⟨s, hmem, htr⟩
        · intro _
          rcases mainAfterSignal_exits t cr dn stack with ⟨c, hc⟩
          simp [hc]
  · intro s
    cases s <;> simp [trapped]
  · intro s rest h
    rw [chanAfter_cons, if_pos h]
  · intro h
    simp [mainTrace, h]

/-- Witness for C7: SIGTERM fills the channel (and a later SIGHUP does not
disturb it); with only SIGUSR1 delivered, the main path has produced no
event and is still serving. -/
theorem signal_gating_witness :
    chanAfter [Sig.sigterm, Sig.sighup] = some Sig.sigterm
    ∧ mainTrace [Sig.sigusr1] 0 cleanup 0 "S" = ([], ProcState.serving) :=
  ⟨(signal_gating [Sig.sigterm, Sig.sighup] 0 cleanup 0 "S").2.2.1 Sig.sigterm
      [Sig.sighup] (by decide),
   (signal_gating [Sig.sigusr1] 0 cleanup 0 "S").2.2.2 (by decide)⟩

/-- C8: the serve goroutine exits fatally iff `ListenAndServe` returned an
error other than the `http.ErrServerClosed` sentinel; the sentinel (the
deliberate-shutdown result) is not treated as an error, and a genuine error
produces the fatal "Server error: ..." log line. -/
theorem serve_error_fatal_except_closed (res : ServeResult) :
    ((serveGoroutine res).2 = true ↔ ∃ m, res = ServeResult.otherError m)
    ∧ (serveGoroutine ServeResult.serverClosed).2 = false
    ∧ ∀ m, serveGoroutine (ServeResult.otherError m) =
        ([Ev.log "Server started on :8080",
          Ev.fatalLog ("Server error: " ++ m)], true) := by
  refine ⟨?_, rfl, fun m => rfl⟩
  cases res <;> simp [serveGoroutine]

end GoServer
